import Mathlib

/-!
# MultiScanRegistration (loam_ros wrapper): setup and frame hand-off

A shallow embedding of `loam_ros/src/wrappers/MultiScanRegistration.cpp`:

* `loam.setup` follows `MultiScanRegistration::setup` (lines 42-92) branch by branch;
* `loam.handleCloudMessage` follows `MultiScanRegistration::handleCloudMessage`
  (lines 96-108).

The object is an explicit record that is passed in and returned.  Calls to
`ROS_ERROR` / `ROS_INFO` are recorded in a log, the call to `process` in a list
of calls, and the `node.subscribe` call in the `subLaserCloud` field.
-/

namespace loam

/-! ## Values -/

/-- A C++ `float` as far as the comparison operators can tell values apart: not-a-number,
the two infinities, or a finite value (every finite single-precision value is a rational;
`+0` and `-0` compare equal and are both `fin 0`).  No arithmetic is defined on it. -/
inductive CFloat where
  | nan
  | negInf
  | fin (q : ℚ)
  | posInf
  deriving DecidableEq

namespace CFloat

/-- The C++ operator `a >= b` on `float`: false as soon as one side is not-a-number. -/
def ge : CFloat → CFloat → Bool
  | nan, _ => false
  | _, nan => false
  | _, negInf => true
  | posInf, _ => true
  | negInf, _ => false
  | fin _, posInf => false
  | fin a, fin b => decide (b ≤ a)

/-- The C++ operator `a < b` on `float`: false as soon as one side is not-a-number. -/
def lt : CFloat → CFloat → Bool
  | nan, _ => false
  | _, nan => false
  | _, negInf => false
  | posInf, _ => false
  | negInf, _ => true
  | fin _, posInf => true
  | fin a, fin b => decide (a < b)

/-- Whether the value is not-a-number. -/
def isNaN : CFloat → Bool
  | nan => true
  | _ => false

/-- Modelled from the spec: the difference `a - b` of the ring formula.  Two finite values
are subtracted exactly, as the formula is written; not-a-number and the infinities follow
the IEEE rules (`inf - inf` is not-a-number). -/
def sub : CFloat → CFloat → CFloat
  | nan, _ => nan
  | _, nan => nan
  | posInf, posInf => nan
  | negInf, negInf => nan
  | posInf, _ => posInf
  | negInf, _ => negInf
  | fin _, posInf => negInf
  | fin _, negInf => posInf
  | fin a, fin b => fin (a - b)

/-- Modelled from the spec: the quotient `a / b` of the ring formula when it is a finite
number, `none` when it is not-a-number or infinite (an operand that is not-a-number, an
infinite numerator, a zero denominator).  Two finite values are divided exactly; a finite
value over an infinity is zero. -/
def quotient : CFloat → CFloat → Option ℚ
  | fin a, fin b => if b = 0 then none else some (a / b)
  | fin _, posInf => some 0
  | fin _, negInf => some 0
  | _, _ => none

end CFloat

/-- Modelled from the spec: the class `MultiScanMapper` is declared in
`loam_velodyne/MultiScanRegistration.h`, which is not among the sources.  The three
factory functions `Velodyne_VLP_16()`, `Velodyne_HDL_32()`, `Velodyne_HDL_64E()` are the
three built-in geometries of the spec, and `linear lo hi n` is the value left by
`set(lo, hi, n)`, which stores the linear span `(minAngle, maxAngle, ringCount)`. -/
inductive MultiScanMapper where
  | Velodyne_VLP_16
  | Velodyne_HDL_32
  | Velodyne_HDL_64E
  | linear (lowerBound upperBound : CFloat) (nScanRings : Int)
  deriving DecidableEq

namespace MultiScanMapper

/-- Modelled from the spec: the ring count of a mapper (the three presets are the 16-ring,
32-ring and 64-ring geometries; a linear mapper has the ring count it was set with). -/
def ringCount : MultiScanMapper → Int
  | Velodyne_VLP_16 => 16
  | Velodyne_HDL_32 => 32
  | Velodyne_HDL_64E => 64
  | linear _ _ n => n

/-- Modelled from the spec: the member function `set(lowerBound, upperBound, nScanRings)`,
declared in the same header.  It "stores the linear span for later interpolation": the
mapper becomes the linear mapper of the triple, whatever it was before. -/
def set (_self : MultiScanMapper) (lowerBound upperBound : CFloat) (nScanRings : Int) :
    MultiScanMapper :=
  linear lowerBound upperBound nScanRings

end MultiScanMapper

/-- What the parameter server answers to the four `node.getParam` calls of `setup`:
`none` when `getParam` returns false (the parameter is missing or has another type),
`some v` when it returns true and stores `v`. -/
structure NodeHandle where
  lidar_model : Option String
  min_vertical_angle : Option CFloat
  max_vertical_angle : Option CFloat
  n_scan_rings : Option Int

/-- One `ROS_ERROR` or `ROS_INFO` call of `setup`, with its arguments. -/
inductive RosLog where
  -- Line 63: `ROS_ERROR("Invalid lidar parameter: %s (only ... are supported)")`
  | errorInvalidLidarParameter (lidarModel : String)
  -- Line 66: `ROS_INFO("Set  %s  scan mapper.")`
  | infoSetScanMapper (lidarModel : String)
  -- Line 72: `ROS_ERROR("Invalid vertical range (min >= max)")`
  | errorInvalidVerticalRange
  -- Line 75: `ROS_ERROR("Invalid number of scan rings (n < 2)")`
  | errorInvalidNumberOfScanRings
  -- Line 79: `ROS_INFO("Set linear scan mapper from %g to %g degrees with %d scan rings.")`
  | infoSetLinearScanMapper (vAngleMin vAngleMax : CFloat) (nScanRings : Int)
  -- Line 83: `ROS_ERROR("Invalid scan registration parameters")`
  | errorInvalidScanRegistrationParameters
  -- Line 84: `ROS_ERROR("Default VLP-16 registration model will be used")`
  | errorDefaultVLP16WillBeUsed
  deriving DecidableEq

/-- The handle returned by `node.subscribe` on line 88: topic name and queue size (the
callback is always `handleCloudMessage`). -/
structure Subscriber where
  topic : String
  queueSize : Nat
  deriving DecidableEq

/-- The members of a `MultiScanRegistration` object that the two functions read or write.
`Cloud` is `pcl::PointCloud<pcl::PointXYZ>` and `Time` is `ros::Time`.

* `scanMapper` is `_scanMapper`, `lidarModel` is `_params.lidarModel`,
  `systemDelay` is `_systemDelay`;
* `subLaserCloud` is `_subLaserCloud`: `none` while no subscription has been created;
* `rosLog` holds the log calls made so far, oldest first;
* `processCalls` holds the arguments of the calls to `process` made so far, oldest first. -/
structure MultiScanRegistration (Cloud Time : Type) where
  scanMapper : MultiScanMapper
  lidarModel : String
  systemDelay : Int
  subLaserCloud : Option Subscriber
  rosLog : List RosLog
  processCalls : List (Cloud × Time)

/-! ## The two member functions -/

/-- `MultiScanRegistration::setup` (lines 42-92).  `baseSetup` is the value returned by
`ScanRegistration::setup(node, privateNode)` on line 45 (the base class is not among the
sources and cannot reach the members of the derived class). The result is the returned
`bool` and the object after the call. -/
def setup {Cloud Time : Type} (baseSetup : Bool) (node : NodeHandle)
    (self : MultiScanRegistration Cloud Time) : Bool × MultiScanRegistration Cloud Time :=
  if !baseSetup then
    (false, self)
  else
    let subscribe (s : MultiScanRegistration Cloud Time) : Bool × MultiScanRegistration Cloud Time :=
      (true, { s with subLaserCloud := some ⟨"/multi_scan_points", 2⟩ })
    match node.lidar_model with
    | some model =>
      let self := { self with lidarModel := model }
      if model = "VLP-16" then
        subscribe { self with
          scanMapper := MultiScanMapper.Velodyne_VLP_16
          rosLog := self.rosLog ++ [RosLog.infoSetScanMapper model] }
      else if model = "HDL-32" then
        subscribe { self with
          scanMapper := MultiScanMapper.Velodyne_HDL_32
          rosLog := self.rosLog ++ [RosLog.infoSetScanMapper model] }
      else if model = "HDL-64E" then
        subscribe { self with
          scanMapper := MultiScanMapper.Velodyne_HDL_64E
          rosLog := self.rosLog ++ [RosLog.infoSetScanMapper model] }
      else
        (false, { self with rosLog := self.rosLog ++ [RosLog.errorInvalidLidarParameter model] })
    | none =>
      match node.min_vertical_angle, node.max_vertical_angle, node.n_scan_rings with
      | some vAngleMin, some vAngleMax, some nScanRings =>
        if vAngleMin.ge vAngleMax then
          (false, { self with rosLog := self.rosLog ++ [RosLog.errorInvalidVerticalRange] })
        else if nScanRings < 2 then
          (false, { self with rosLog := self.rosLog ++ [RosLog.errorInvalidNumberOfScanRings] })
        else
          subscribe { self with
            scanMapper := self.scanMapper.set vAngleMin vAngleMax nScanRings
            rosLog := self.rosLog ++
              [RosLog.infoSetLinearScanMapper vAngleMin vAngleMax nScanRings] }
      | _, _, _ =>
        subscribe { self with
          rosLog := self.rosLog ++
            [RosLog.errorInvalidScanRegistrationParameters, RosLog.errorDefaultVLP16WillBeUsed] }

/-- `MultiScanRegistration::handleCloudMessage` (lines 96-108).  `fromROSMsg` is
`pcl::fromROSMsg` and `stamp` reads `header.stamp`; `process` is not among the sources and
its call is recorded with its two arguments. -/
def handleCloudMessage {Msg Cloud Time : Type} (fromROSMsg : Msg → Cloud) (stamp : Msg → Time)
    (self : MultiScanRegistration Cloud Time) (laserCloudMsg : Msg) :
    MultiScanRegistration Cloud Time :=
  if self.systemDelay > 0 then
    { self with systemDelay := self.systemDelay - 1 }
  else
    let laserCloudIn := fromROSMsg laserCloudMsg
    { self with processCalls := self.processCalls ++ [(laserCloudIn, stamp laserCloudMsg)] }

/-- The callback run once per message, in order of arrival. -/
def handleAll {Msg Cloud Time : Type} (fromROSMsg : Msg → Cloud) (stamp : Msg → Time)
    (self : MultiScanRegistration Cloud Time) (msgs : List Msg) :
    MultiScanRegistration Cloud Time :=
  msgs.foldl (handleCloudMessage fromROSMsg stamp) self

/-- Messages arriving on the topic reach `handleCloudMessage` only through the subscription
made on line 88: with no subscription nothing is called. -/
def spin {Msg Cloud Time : Type} (fromROSMsg : Msg → Cloud) (stamp : Msg → Time)
    (self : MultiScanRegistration Cloud Time) (msgs : List Msg) :
    MultiScanRegistration Cloud Time :=
  match self.subLaserCloud with
  | none => self
  | some _ => handleAll fromROSMsg stamp self msgs

/-- Modelled from the spec: `ringForAngle` in linear mode (the ring lookup of the mapper is
in the header that is not among the sources).  It is the formula of the spec,
`index = round((angle - minAngle) / (maxAngle - minAngle) * (ringCount - 1))`, with "none"
when the rounded index is outside `[0, ringCount-1]`.  On finite angles the arithmetic is
exact, as the formula is written (no rounding to single precision); a quotient that is
not-a-number or infinite has no ring index and gives "none". -/
def ringForAngle (minAngle maxAngle : CFloat) (ringCount : Int) (angle : CFloat) :
    Option Int :=
  match (angle.sub minAngle).quotient (maxAngle.sub minAngle) with
  | none => none
  | some ratio =>
    let index : Int := round (ratio * ((ringCount : ℚ) - 1))
    if 0 ≤ index ∧ index ≤ ringCount - 1 then some index else none

/-- The object after a successful run of the explicit branch (lines 78-91). -/
def afterLinear {Cloud Time : Type} (self : MultiScanRegistration Cloud Time)
    (vAngleMin vAngleMax : CFloat) (nScanRings : Int) : MultiScanRegistration Cloud Time :=
  { self with
    scanMapper := MultiScanMapper.linear vAngleMin vAngleMax nScanRings
    rosLog := self.rosLog ++ [RosLog.infoSetLinearScanMapper vAngleMin vAngleMax nScanRings]
    subLaserCloud := some ⟨"/multi_scan_points", 2⟩ }

/-- The object after the fall-through branch (lines 82-91): two errors logged, the mapper
untouched, the subscription created. -/
def afterFallThrough {Cloud Time : Type} (self : MultiScanRegistration Cloud Time) :
    MultiScanRegistration Cloud Time :=
  { self with
    rosLog := self.rosLog ++
      [RosLog.errorInvalidScanRegistrationParameters, RosLog.errorDefaultVLP16WillBeUsed]
    subLaserCloud := some ⟨"/multi_scan_points", 2⟩ }

/-- A freshly constructed object with warm-up counter `systemDelay` and the default
mapper `mapper`: nothing subscribed, logged or processed yet. -/
def fresh (Cloud Time : Type) (mapper : MultiScanMapper) (systemDelay : Int) :
    MultiScanRegistration Cloud Time :=
  { scanMapper := mapper, lidarModel := "", systemDelay := systemDelay,
    subLaserCloud := none, rosLog := [], processCalls := [] }


/-! ## Lemmas on the warm-up counter -/

theorem handleAll_nil {Msg Cloud Time : Type} (fromROSMsg : Msg → Cloud) (stamp : Msg → Time)
    (self : MultiScanRegistration Cloud Time) :
    handleAll fromROSMsg stamp self [] = self := rfl

theorem handleAll_cons {Msg Cloud Time : Type} (fromROSMsg : Msg → Cloud) (stamp : Msg → Time)
    (self : MultiScanRegistration Cloud Time) (m : Msg) (msgs : List Msg) :
    handleAll fromROSMsg stamp self (m :: msgs) =
      handleAll fromROSMsg stamp (handleCloudMessage fromROSMsg stamp self m) msgs := rfl

theorem handleAll_append {Msg Cloud Time : Type} (fromROSMsg : Msg → Cloud) (stamp : Msg → Time)
    (self : MultiScanRegistration Cloud Time) (xs ys : List Msg) :
    handleAll fromROSMsg stamp self (xs ++ ys) =
      handleAll fromROSMsg stamp (handleAll fromROSMsg stamp self xs) ys := by
  simp [handleAll, List.foldl_append]

theorem handleCloudMessage_skip {Msg Cloud Time : Type} (fromROSMsg : Msg → Cloud)
    (stamp : Msg → Time) (self : MultiScanRegistration Cloud Time) (m : Msg)
    (h : 0 < self.systemDelay) :
    handleCloudMessage fromROSMsg stamp self m =
      { self with systemDelay := self.systemDelay - 1 } := by
  simp [handleCloudMessage, h]

theorem handleCloudMessage_dispatch {Msg Cloud Time : Type} (fromROSMsg : Msg → Cloud)
    (stamp : Msg → Time) (self : MultiScanRegistration Cloud Time) (m : Msg)
    (h : self.systemDelay ≤ 0) :
    handleCloudMessage fromROSMsg stamp self m =
      { self with processCalls := self.processCalls ++ [(fromROSMsg m, stamp m)] } := by
  have h' : ¬ (0 < self.systemDelay) := not_lt.mpr h
  simp [handleCloudMessage, h']

/-- After `msgs` the counter that started at `K` stands at `K - length msgs`, cut at zero. -/
theorem handleAll_systemDelay {Msg Cloud Time : Type} (fromROSMsg : Msg → Cloud)
    (stamp : Msg → Time) (msgs : List Msg) :
    ∀ (K : Nat) (self : MultiScanRegistration Cloud Time), self.systemDelay = (K : Int) →
      (handleAll fromROSMsg stamp self msgs).systemDelay = ((K - msgs.length : Nat) : Int) := by
  induction msgs with
  | nil => intro K self h; simpa [handleAll_nil] using h
  | cons m rest ih =>
    intro K self h
    rw [handleAll_cons]
    cases K with
    | zero =>
      have h0 : self.systemDelay ≤ 0 := by simp [h]
      rw [handleCloudMessage_dispatch fromROSMsg stamp self m h0]
      have := ih 0 { self with processCalls := self.processCalls ++ [(fromROSMsg m, stamp m)] }
        (by simpa using h)
      simpa using this
    | succ k =>
      have hpos : 0 < self.systemDelay := by rw [h]; exact_mod_cast Nat.succ_pos k
      rw [handleCloudMessage_skip fromROSMsg stamp self m hpos]
      have := ih k { self with systemDelay := self.systemDelay - 1 } (by simp [h])
      simpa using this

/-- After `msgs` exactly the messages from position `K` on have been handed to `process`,
in order of arrival. -/
theorem handleAll_processCalls {Msg Cloud Time : Type} (fromROSMsg : Msg → Cloud)
    (stamp : Msg → Time) (msgs : List Msg) :
    ∀ (K : Nat) (self : MultiScanRegistration Cloud Time), self.systemDelay = (K : Int) →
      (handleAll fromROSMsg stamp self msgs).processCalls =
        self.processCalls ++ (msgs.drop K).map (fun m => (fromROSMsg m, stamp m)) := by
  induction msgs with
  | nil => intro K self _; simp [handleAll_nil]
  | cons m rest ih =>
    intro K self h
    rw [handleAll_cons]
    cases K with
    | zero =>
      have h0 : self.systemDelay ≤ 0 := by simp [h]
      rw [handleCloudMessage_dispatch fromROSMsg stamp self m h0]
      have := ih 0 { self with processCalls := self.processCalls ++ [(fromROSMsg m, stamp m)] }
        (by simpa using h)
      simpa using this
    | succ k =>
      have hpos : 0 < self.systemDelay := by rw [h]; exact_mod_cast Nat.succ_pos k
      rw [handleCloudMessage_skip fromROSMsg stamp self m hpos]
      have := ih k { self with systemDelay := self.systemDelay - 1 } (by simp [h])
      simpa using this

/-- The other members are never written by the callback. -/
theorem handleAll_frame {Msg Cloud Time : Type} (fromROSMsg : Msg → Cloud)
    (stamp : Msg → Time) (msgs : List Msg) :
    ∀ (self : MultiScanRegistration Cloud Time),
      (handleAll fromROSMsg stamp self msgs).scanMapper = self.scanMapper ∧
      (handleAll fromROSMsg stamp self msgs).subLaserCloud = self.subLaserCloud := by
  induction msgs with
  | nil => intro self; simp [handleAll_nil]
  | cons m rest ih =>
    intro self
    rw [handleAll_cons]
    obtain ⟨h1, h2⟩ := ih (handleCloudMessage fromROSMsg stamp self m)
    rw [h1, h2]
    unfold handleCloudMessage
    split <;> simp

/-! ## Claims on the warm-up (handleCloudMessage) -/

/-- C1 (warm-up): on an object whose warm-up counter `_systemDelay` starts at `K ≥ 0`, a call
to `handleCloudMessage` that comes after fewer than `K` earlier calls is skipped (no call
to `process`, the counter goes down by one), and a call that comes after `K` or more
earlier calls dispatches: it calls `process` on the converted frame and its stamp.  Over a
whole run, exactly the frames from position `K` on reach `process`, in arrival order. -/
theorem C1_warmup_first_K_skipped_then_dispatch {Msg Cloud Time : Type}
    (fromROSMsg : Msg → Cloud) (stamp : Msg → Time) (K : Nat)
    (self : MultiScanRegistration Cloud Time) (hK : self.systemDelay = (K : Int))
    (earlier : List Msg) (m : Msg) :
    (earlier.length < K →
      (handleCloudMessage fromROSMsg stamp (handleAll fromROSMsg stamp self earlier) m).processCalls
          = (handleAll fromROSMsg stamp self earlier).processCalls ∧
      (handleCloudMessage fromROSMsg stamp (handleAll fromROSMsg stamp self earlier) m).systemDelay
          = (handleAll fromROSMsg stamp self earlier).systemDelay - 1) ∧
    (K ≤ earlier.length →
      (handleCloudMessage fromROSMsg stamp (handleAll fromROSMsg stamp self earlier) m).processCalls
          = (handleAll fromROSMsg stamp self earlier).processCalls ++ [(fromROSMsg m, stamp m)]) ∧
    (handleAll fromROSMsg stamp self (earlier ++ [m])).processCalls =
      self.processCalls ++ ((earlier ++ [m]).drop K).map (fun x => (fromROSMsg x, stamp x)) := by
  have hd := handleAll_systemDelay fromROSMsg stamp earlier K self hK
  refine ⟨?_, ?_, handleAll_processCalls fromROSMsg stamp (earlier ++ [m]) K self hK⟩
  · intro hlt
    have hpos : 0 < (handleAll fromROSMsg stamp self earlier).systemDelay := by
      rw [hd]; exact_mod_cast Nat.sub_pos_of_lt hlt
    rw [handleCloudMessage_skip fromROSMsg stamp _ m hpos]
    exact ⟨rfl, rfl⟩
  · intro hle
    have h0 : (handleAll fromROSMsg stamp self earlier).systemDelay ≤ 0 := by
      rw [hd, Nat.sub_eq_zero_of_le hle]; simp
    rw [handleCloudMessage_dispatch fromROSMsg stamp _ m h0]

/-- C1 at a concrete run: counter 2, frames 10, 11, 12, 13; the fourth call dispatches and
only frames 12 and 13 reach `process`. -/
theorem C1_warmup_witness :
    (fresh Nat Nat MultiScanMapper.Velodyne_VLP_16 2).systemDelay = ((2 : Nat) : Int) ∧
    (handleAll id (fun x => x + 100) (fresh Nat Nat MultiScanMapper.Velodyne_VLP_16 2)
      ([10, 11, 12] ++ [13])).processCalls = [(12, 112), (13, 113)] :=
  ⟨rfl, (C1_warmup_first_K_skipped_then_dispatch id (fun x => x + 100) 2
    (fresh Nat Nat MultiScanMapper.Velodyne_VLP_16 2) rfl [10, 11, 12] 13).2.2⟩

/-! ## Lemmas on setup -/

theorem setup_base_false {Cloud Time : Type} (node : NodeHandle)
    (self : MultiScanRegistration Cloud Time) : setup false node self = (false, self) := by
  simp [setup]

theorem setup_explicit {Cloud Time : Type} (a b : CFloat) (n : Int)
    (self : MultiScanRegistration Cloud Time) :
    setup true ⟨none, some a, some b, some n⟩ self =
      if a.ge b then
        (false, { self with rosLog := self.rosLog ++ [RosLog.errorInvalidVerticalRange] })
      else if n < 2 then
        (false, { self with rosLog := self.rosLog ++ [RosLog.errorInvalidNumberOfScanRings] })
      else (true, afterLinear self a b n) := by
  simp only [setup, afterLinear, MultiScanMapper.set]
  rfl

theorem setup_incomplete {Cloud Time : Type} (a b : Option CFloat) (n : Option Int)
    (self : MultiScanRegistration Cloud Time) (h : a = none ∨ b = none ∨ n = none) :
    setup true ⟨none, a, b, n⟩ self = (true, afterFallThrough self) := by
  cases a <;> cases b <;> cases n <;> simp at h <;> simp [setup, afterFallThrough]

theorem CFloat.ge_false_of_lt {a b : CFloat} (h : a.lt b = true) : a.ge b = false := by
  cases a <;> cases b <;> simp_all [CFloat.lt, CFloat.ge]

theorem CFloat.lt_of_ge_false {a b : CFloat} (ha : a.isNaN = false) (hb : b.isNaN = false)
    (h : a.ge b = false) : a.lt b = true := by
  cases a <;> cases b <;> simp_all [CFloat.lt, CFloat.ge, CFloat.isNaN]

/-- What the explicit branch really checks: success exactly when `min >= max` is false and
`n >= 2`. -/
theorem setup_explicit_true_iff {Cloud Time : Type} (a b : CFloat) (n : Int)
    (self : MultiScanRegistration Cloud Time) :
    (setup true ⟨none, some a, some b, some n⟩ self).1 = true ↔ (a.ge b = false ∧ 2 ≤ n) := by
  rw [setup_explicit]
  by_cases h1 : a.ge b = true
  · simp [h1]
  · by_cases h2 : n < 2
    · simp [h1, h2]
    · have : 2 ≤ n := not_lt.mp h2
      simp [h1, h2, this]

/-- For angles that are not not-a-number the explicit branch succeeds exactly when
`min < max` and `n >= 2`. -/
theorem setup_explicit_true_iff_of_not_nan {Cloud Time : Type} (a b : CFloat) (n : Int)
    (self : MultiScanRegistration Cloud Time) (ha : a.isNaN = false) (hb : b.isNaN = false) :
    (setup true ⟨none, some a, some b, some n⟩ self).1 = true ↔ (a.lt b = true ∧ 2 ≤ n) := by
  rw [setup_explicit_true_iff]
  constructor
  · rintro ⟨h1, h2⟩; exact ⟨CFloat.lt_of_ge_false ha hb h1, h2⟩
  · rintro ⟨h1, h2⟩; exact ⟨CFloat.ge_false_of_lt h1, h2⟩

/-! ## Claims on setup -/

/-- C2 (preset names): with the base setup succeeding and a lidar model name `s` supplied,
`setup` returns false exactly when `s` is none of "VLP-16", "HDL-32", "HDL-64E", and then
the error logged is the invalid-lidar-parameter one; "bad-model" fails; each recognised
name succeeds and selects the matching preset mapper, of 16, 32 and 64 rings. -/
theorem C2_unknown_model_iff_not_recognised {Cloud Time : Type} (s : String)
    (a b : Option CFloat) (n : Option Int) (self : MultiScanRegistration Cloud Time) :
    ((setup true ⟨some s, a, b, n⟩ self).1 = false ↔
      ¬ (s = "VLP-16" ∨ s = "HDL-32" ∨ s = "HDL-64E")) ∧
    ((setup true ⟨some s, a, b, n⟩ self).1 = false →
      (setup true ⟨some s, a, b, n⟩ self).2.rosLog =
        self.rosLog ++ [RosLog.errorInvalidLidarParameter s]) ∧
    (setup true ⟨some "bad-model", a, b, n⟩ self).1 = false ∧
    ((setup true ⟨some "VLP-16", a, b, n⟩ self).1 = true ∧
      (setup true ⟨some "VLP-16", a, b, n⟩ self).2.scanMapper = MultiScanMapper.Velodyne_VLP_16 ∧
      (setup true ⟨some "VLP-16", a, b, n⟩ self).2.scanMapper.ringCount = 16) ∧
    ((setup true ⟨some "HDL-32", a, b, n⟩ self).1 = true ∧
      (setup true ⟨some "HDL-32", a, b, n⟩ self).2.scanMapper = MultiScanMapper.Velodyne_HDL_32 ∧
      (setup true ⟨some "HDL-32", a, b, n⟩ self).2.scanMapper.ringCount = 32) ∧
    ((setup true ⟨some "HDL-64E", a, b, n⟩ self).1 = true ∧
      (setup true ⟨some "HDL-64E", a, b, n⟩ self).2.scanMapper = MultiScanMapper.Velodyne_HDL_64E ∧
      (setup true ⟨some "HDL-64E", a, b, n⟩ self).2.scanMapper.ringCount = 64) := by
  refine ⟨?_, ?_, ?_, ?_, ?_, ?_⟩
  · by_cases h1 : s = "VLP-16"
    · simp [setup, h1]
    · by_cases h2 : s = "HDL-32"
      · simp [setup, h1, h2]
      · by_cases h3 : s = "HDL-64E"
        · simp [setup, h1, h2, h3]
        · simp [setup, h1, h2, h3]
  · by_cases h1 : s = "VLP-16"
    · simp [setup, h1]
    · by_cases h2 : s = "HDL-32"
      · simp [setup, h1, h2]
      · by_cases h3 : s = "HDL-64E"
        · simp [setup, h1, h2, h3]
        · simp [setup, h1, h2, h3]
  · simp [setup]
  · simp [setup, MultiScanMapper.ringCount]
  · simp [setup, MultiScanMapper.ringCount]
  · simp [setup, MultiScanMapper.ringCount]

/-- C3 (invalid range): with no model name and the full triple given, `min >= max` makes
`setup` return false through the "min >= max" branch (that error is logged, nothing else
changes), whatever the ring count, also below 2. -/
theorem C3_invalid_range_fails {Cloud Time : Type} (vAngleMin vAngleMax : CFloat)
    (nScanRings : Int) (self : MultiScanRegistration Cloud Time)
    (h : vAngleMin.ge vAngleMax = true) :
    setup true ⟨none, some vAngleMin, some vAngleMax, some nScanRings⟩ self =
      (false, { self with rosLog := self.rosLog ++ [RosLog.errorInvalidVerticalRange] }) := by
  rw [setup_explicit]; simp [h]

/-- C3 at `minAngle = 10`, `maxAngle = 5`, with a ring count of 1. -/
theorem C3_invalid_range_witness :
    CFloat.ge (.fin 10) (.fin 5) = true ∧
    setup true ⟨none, some (.fin 10), some (.fin 5), some 1⟩
        (fresh Nat Nat MultiScanMapper.Velodyne_VLP_16 20) =
      (false, { fresh Nat Nat MultiScanMapper.Velodyne_VLP_16 20 with
        rosLog := (fresh Nat Nat MultiScanMapper.Velodyne_VLP_16 20).rosLog ++
          [RosLog.errorInvalidVerticalRange] }) :=
  ⟨by decide, C3_invalid_range_fails (.fin 10) (.fin 5) 1 _ (by decide)⟩

/-- C4 (invalid ring count): with no model name and the full triple given, `min < max` and
a ring count below 2 (zero and negative counts too) make `setup` return false through the
"n < 2" branch: that error is logged and the mapper is not set from the triple. -/
theorem C4_invalid_ring_count_fails {Cloud Time : Type} (vAngleMin vAngleMax : CFloat)
    (nScanRings : Int) (self : MultiScanRegistration Cloud Time)
    (hlt : vAngleMin.lt vAngleMax = true) (hn : nScanRings < 2) :
    setup true ⟨none, some vAngleMin, some vAngleMax, some nScanRings⟩ self =
      (false, { self with rosLog := self.rosLog ++ [RosLog.errorInvalidNumberOfScanRings] }) ∧
    (setup true ⟨none, some vAngleMin, some vAngleMax, some nScanRings⟩ self).2.scanMapper =
      self.scanMapper := by
  rw [setup_explicit]; simp [CFloat.ge_false_of_lt hlt, hn]

/-- C4 at `minAngle = -15`, `maxAngle = 15`, ring count `-3`. -/
theorem C4_invalid_ring_count_witness :
    CFloat.lt (.fin (-15)) (.fin 15) = true ∧ (-3 : Int) < 2 ∧
    (setup true ⟨none, some (.fin (-15)), some (.fin 15), some (-3)⟩
        (fresh Nat Nat MultiScanMapper.Velodyne_VLP_16 20)).2.scanMapper =
      MultiScanMapper.Velodyne_VLP_16 :=
  ⟨by decide, by decide,
    (C4_invalid_ring_count_fails (.fin (-15)) (.fin 15) (-3)
      (fresh Nat Nat MultiScanMapper.Velodyne_VLP_16 20) (by decide) (by decide)).2⟩

/-- C5 fails on the code: with only the ring count given (no model name, no angles) and the
base setup succeeding, `setup` returns true, logs the two fall-through errors, keeps the
default mapper and creates the subscription, after which a frame is processed. -/
theorem C5_partial_specification_accepted :
    (setup true ⟨none, none, none, some 16⟩
        (fresh Nat Nat MultiScanMapper.Velodyne_VLP_16 0)).1 = true ∧
    (setup true ⟨none, none, none, some 16⟩
        (fresh Nat Nat MultiScanMapper.Velodyne_VLP_16 0)).2.subLaserCloud =
      some ⟨"/multi_scan_points", 2⟩ ∧
    (setup true ⟨none, none, none, some 16⟩
        (fresh Nat Nat MultiScanMapper.Velodyne_VLP_16 0)).2.scanMapper =
      MultiScanMapper.Velodyne_VLP_16 ∧
    (setup true ⟨none, none, none, some 16⟩
        (fresh Nat Nat MultiScanMapper.Velodyne_VLP_16 0)).2.rosLog =
      [RosLog.errorInvalidScanRegistrationParameters, RosLog.errorDefaultVLP16WillBeUsed] ∧
    (spin id id (setup true ⟨none, none, none, some 16⟩
        (fresh Nat Nat MultiScanMapper.Velodyne_VLP_16 0)).2 [7]).processCalls = [(7, 7)] := by
  decide

/-- C5 as amended: with the base setup succeeding, no model name and at least one of
`min_vertical_angle`, `max_vertical_angle`, `n_scan_rings` missing, `setup` logs "Invalid
scan registration parameters" and "Default VLP-16 registration model will be used", leaves
the mapper as it was, creates the subscription and returns true. -/
theorem C5_partial_specification_falls_through {Cloud Time : Type}
    (a b : Option CFloat) (n : Option Int) (self : MultiScanRegistration Cloud Time)
    (h : a = none ∨ b = none ∨ n = none) :
    (setup true ⟨none, a, b, n⟩ self).1 = true ∧
    (setup true ⟨none, a, b, n⟩ self).2.scanMapper = self.scanMapper ∧
    (setup true ⟨none, a, b, n⟩ self).2.subLaserCloud = some ⟨"/multi_scan_points", 2⟩ ∧
    (setup true ⟨none, a, b, n⟩ self).2.rosLog = self.rosLog ++
      [RosLog.errorInvalidScanRegistrationParameters, RosLog.errorDefaultVLP16WillBeUsed] := by
  rw [setup_incomplete a b n self h]
  simp [afterFallThrough]

/-- The amended C5 with only the maximum angle missing. -/
theorem C5_partial_specification_witness :
    ((some (CFloat.fin (-15)) = none ∨ (none : Option CFloat) = none ∨ some (16 : Int) = none)) ∧
    (setup true ⟨none, some (.fin (-15)), none, some 16⟩
        (fresh Nat Nat MultiScanMapper.Velodyne_HDL_32 0)).1 = true :=
  ⟨Or.inr (Or.inl rfl),
    (C5_partial_specification_falls_through (some (.fin (-15))) none (some 16)
      (fresh Nat Nat MultiScanMapper.Velodyne_HDL_32 0) (Or.inr (Or.inl rfl))).1⟩

/-- C6 (configuration errors are fatal and atomic): whenever `setup` returns false, the
cause is a failed base setup, an unrecognised model name, `min >= max`, or a ring count
below 2; the scan mapper, the subscription handle, the warm-up counter and the list of
processed frames are exactly as before the call, so on an object that had no subscription
no frame delivered afterwards reaches `handleCloudMessage`. -/
theorem C6_failure_before_subscription {Msg Cloud Time : Type} (fromROSMsg : Msg → Cloud)
    (stamp : Msg → Time) (baseSetup : Bool) (node : NodeHandle)
    (self : MultiScanRegistration Cloud Time) (h : (setup baseSetup node self).1 = false) :
    (setup baseSetup node self).2.scanMapper = self.scanMapper ∧
    (setup baseSetup node self).2.subLaserCloud = self.subLaserCloud ∧
    (setup baseSetup node self).2.systemDelay = self.systemDelay ∧
    (setup baseSetup node self).2.processCalls = self.processCalls ∧
    (self.subLaserCloud = none → ∀ msgs : List Msg,
      spin fromROSMsg stamp (setup baseSetup node self).2 msgs = (setup baseSetup node self).2) ∧
    (baseSetup = false ∨
      (∃ s, node.lidar_model = some s ∧ ¬ (s = "VLP-16" ∨ s = "HDL-32" ∨ s = "HDL-64E")) ∨
      (node.lidar_model = none ∧ ∃ a b n, node.min_vertical_angle = some a ∧
        node.max_vertical_angle = some b ∧ node.n_scan_rings = some n ∧
        (a.ge b = true ∨ n < 2))) := by
  obtain ⟨model, a, b, n⟩ := node
  cases baseSetup with
  | false =>
    simp [setup_base_false, spin]
    intro hs msgs; simp [hs]
  | true =>
    cases model with
    | some s =>
      by_cases h1 : s = "VLP-16"
      · simp [setup, h1] at h
      · by_cases h2 : s = "HDL-32"
        · simp [setup, h2] at h
        · by_cases h3 : s = "HDL-64E"
          · simp [setup, h3] at h
          · simp [setup, h1, h2, h3, spin]
            intro hs msgs; simp [hs]
    | none =>
      cases a with
      | none => simp [setup_incomplete] at h
      | some a =>
        cases b with
        | none => simp [setup_incomplete] at h
        | some b =>
          cases n with
          | none => simp [setup_incomplete] at h
          | some n =>
            rw [setup_explicit] at h ⊢
            by_cases hge : a.ge b = true
            · simp [hge, spin]
              intro hs msgs; simp [hs]
            · by_cases hn : n < 2
              · simp [hge, hn, spin]
                intro hs msgs; simp [hs]
              · simp [hge, hn] at h

/-- C6 at the unrecognised name "bad-model": a frame delivered after the failed call is
not processed. -/
theorem C6_failure_witness :
    (setup true ⟨some "bad-model", none, none, none⟩
        (fresh Nat Nat MultiScanMapper.Velodyne_VLP_16 0)).1 = false ∧
    (setup true ⟨some "bad-model", none, none, none⟩
        (fresh Nat Nat MultiScanMapper.Velodyne_VLP_16 0)).2.scanMapper =
      MultiScanMapper.Velodyne_VLP_16 ∧
    spin id id (setup true ⟨some "bad-model", none, none, none⟩
        (fresh Nat Nat MultiScanMapper.Velodyne_VLP_16 0)).2 [7] =
      (setup true ⟨some "bad-model", none, none, none⟩
        (fresh Nat Nat MultiScanMapper.Velodyne_VLP_16 0)).2 :=
  ⟨by decide,
    (C6_failure_before_subscription (id : Nat → Nat) (id : Nat → Nat) true
      ⟨some "bad-model", none, none, none⟩
      (fresh Nat Nat MultiScanMapper.Velodyne_VLP_16 0) (by decide)).1,
    (C6_failure_before_subscription (id : Nat → Nat) (id : Nat → Nat) true
      ⟨some "bad-model", none, none, none⟩
      (fresh Nat Nat MultiScanMapper.Velodyne_VLP_16 0) (by decide)).2.2.2.2.1 rfl [7]⟩

/-- C7 at a not-a-number minimum angle: with no model name and the triple
`(NaN, 5, 16)`, the test `min >= max` is false, so `setup` returns true, creates the
subscription and sets the mapper from the triple, although `min < max` is false. -/
theorem C7_nan_range_is_accepted :
    CFloat.lt .nan (.fin 5) = false ∧
    (setup true ⟨none, some .nan, some (.fin 5), some 16⟩
        (fresh Nat Nat MultiScanMapper.Velodyne_VLP_16 0)).1 = true ∧
    (setup true ⟨none, some .nan, some (.fin 5), some 16⟩
        (fresh Nat Nat MultiScanMapper.Velodyne_VLP_16 0)).2.scanMapper =
      MultiScanMapper.linear .nan (.fin 5) 16 ∧
    (setup true ⟨none, some .nan, some (.fin 5), some 16⟩
        (fresh Nat Nat MultiScanMapper.Velodyne_VLP_16 0)).2.subLaserCloud =
      some ⟨"/multi_scan_points", 2⟩ := by
  decide

/-- The example of the spec: with the calibration `(-15, 15, 16)` the angles -15, -13, 0
and 15 are sent to the rings 0, 1, 8 and 15 by the linear formula, and an angle of 17
degrees is out of the field of view. -/
theorem ringForAngle_spec_example :
    ringForAngle (.fin (-15)) (.fin 15) 16 (.fin (-15)) = some 0 ∧
    ringForAngle (.fin (-15)) (.fin 15) 16 (.fin (-13)) = some 1 ∧
    ringForAngle (.fin (-15)) (.fin 15) 16 (.fin 0) = some 8 ∧
    ringForAngle (.fin (-15)) (.fin 15) 16 (.fin 15) = some 15 ∧
    ringForAngle (.fin (-15)) (.fin 15) 16 (.fin 17) = none := by
  refine ⟨?_, ?_, ?_, ?_, ?_⟩ <;>
    norm_num [ringForAngle, CFloat.sub, CFloat.quotient, round_eq]

/-- C9 (warm-up counter invariant): starting from a counter `≥ 0`, after any sequence of
calls the counter is still `≥ 0`; the next call either is skipped (no call to `process`)
and lowers the counter by exactly 1, or dispatches (one call to `process`, on this frame)
and leaves the counter unchanged at 0; and once the counter is 0 it is 0 after every later
sequence of calls, each of which dispatches. -/
theorem C9_warmup_counter_invariant {Msg Cloud Time : Type} (fromROSMsg : Msg → Cloud)
    (stamp : Msg → Time) (self : MultiScanRegistration Cloud Time)
    (h0 : 0 ≤ self.systemDelay) (msgs : List Msg) (m : Msg) :
    0 ≤ (handleAll fromROSMsg stamp self msgs).systemDelay ∧
    ((0 < (handleAll fromROSMsg stamp self msgs).systemDelay ∧
        (handleCloudMessage fromROSMsg stamp (handleAll fromROSMsg stamp self msgs) m).processCalls
          = (handleAll fromROSMsg stamp self msgs).processCalls ∧
        (handleCloudMessage fromROSMsg stamp (handleAll fromROSMsg stamp self msgs) m).systemDelay
          = (handleAll fromROSMsg stamp self msgs).systemDelay - 1) ∨
      ((handleAll fromROSMsg stamp self msgs).systemDelay = 0 ∧
        (handleCloudMessage fromROSMsg stamp (handleAll fromROSMsg stamp self msgs) m).processCalls
          = (handleAll fromROSMsg stamp self msgs).processCalls ++ [(fromROSMsg m, stamp m)] ∧
        (handleCloudMessage fromROSMsg stamp (handleAll fromROSMsg stamp self msgs) m).systemDelay
          = (handleAll fromROSMsg stamp self msgs).systemDelay)) ∧
    ((handleAll fromROSMsg stamp self msgs).systemDelay = 0 → ∀ later : List Msg,
      (handleAll fromROSMsg stamp self (msgs ++ later)).systemDelay = 0 ∧
      (handleAll fromROSMsg stamp self (msgs ++ later)).processCalls =
        (handleAll fromROSMsg stamp self msgs).processCalls ++
          later.map (fun x => (fromROSMsg x, stamp x))) := by
  have hK : self.systemDelay = ((self.systemDelay.toNat : Nat) : Int) :=
    (Int.toNat_of_nonneg h0).symm
  have hd := handleAll_systemDelay fromROSMsg stamp msgs _ self hK
  have hnn : 0 ≤ (handleAll fromROSMsg stamp self msgs).systemDelay := by
    rw [hd]; exact Int.natCast_nonneg _
  refine ⟨hnn, ?_, ?_⟩
  · rcases lt_or_eq_of_le hnn with hpos | hz
    · left
      rw [handleCloudMessage_skip fromROSMsg stamp _ m hpos]
      exact ⟨hpos, rfl, rfl⟩
    · right
      rw [handleCloudMessage_dispatch fromROSMsg stamp _ m (le_of_eq hz.symm)]
      exact ⟨hz.symm, rfl, rfl⟩
  · intro hz later
    rw [handleAll_append]
    have hz' : (handleAll fromROSMsg stamp self msgs).systemDelay = ((0 : Nat) : Int) := by
      simpa using hz
    constructor
    · rw [handleAll_systemDelay fromROSMsg stamp later 0 _ hz']; simp
    · rw [handleAll_processCalls fromROSMsg stamp later 0 _ hz']; simp

/-- C9 on a run from counter 1: after the frames 10 and 11 the counter is 0 and stays 0
over the frames 12 and 13. -/
theorem C9_warmup_counter_witness :
    (0 : Int) ≤ (fresh Nat Nat MultiScanMapper.Velodyne_VLP_16 1).systemDelay ∧
    (handleAll id id (fresh Nat Nat MultiScanMapper.Velodyne_VLP_16 1)
      ([10, 11] ++ [12, 13])).systemDelay = 0 :=
  ⟨by decide,
    ((C9_warmup_counter_invariant (id : Nat → Nat) (id : Nat → Nat)
      (fresh Nat Nat MultiScanMapper.Velodyne_VLP_16 1) (by decide) [10, 11] 0).2.2
        (by decide) [12, 13]).1⟩

/-- C10 (the model name takes precedence): when a lidar model name is present, the result
of `setup` (returned value and object) is the same whatever the three explicit parameters
are, present or absent, valid or not; in particular a recognised name is accepted together
with any triple, which is never validated. -/
theorem C10_model_name_takes_precedence {Cloud Time : Type} (baseSetup : Bool) (s : String)
    (a b a' b' : Option CFloat) (n n' : Option Int) (self : MultiScanRegistration Cloud Time) :
    setup baseSetup ⟨some s, a, b, n⟩ self = setup baseSetup ⟨some s, a', b', n'⟩ self ∧
    ((s = "VLP-16" ∨ s = "HDL-32" ∨ s = "HDL-64E") →
      (setup true ⟨some s, a, b, n⟩ self).1 = true) := by
  refine ⟨by simp [setup], ?_⟩
  rintro (h | h | h) <;> simp [setup, h]

/-- C10 with the name "HDL-32" next to the invalid triple `(10, 5, 1)`: accepted, with
the HDL-32 preset, as with no triple at all. -/
theorem C10_model_name_witness :
    setup true ⟨some "HDL-32", some (.fin 10), some (.fin 5), some 1⟩
        (fresh Nat Nat MultiScanMapper.Velodyne_VLP_16 0) =
      setup true ⟨some "HDL-32", none, none, none⟩
        (fresh Nat Nat MultiScanMapper.Velodyne_VLP_16 0) ∧
    (setup true ⟨some "HDL-32", some (.fin 10), some (.fin 5), some 1⟩
        (fresh Nat Nat MultiScanMapper.Velodyne_VLP_16 0)).1 = true :=
  ⟨(C10_model_name_takes_precedence true "HDL-32" (some (.fin 10)) (some (.fin 5)) none none
      (some 1) none (fresh Nat Nat MultiScanMapper.Velodyne_VLP_16 0)).1,
    (C10_model_name_takes_precedence true "HDL-32" (some (.fin 10)) (some (.fin 5)) none none
      (some 1) none (fresh Nat Nat MultiScanMapper.Velodyne_VLP_16 0)).2 (Or.inr (Or.inl rfl))⟩

end loam
